import Mathlib

/-!
Verification of the commodities / FX / compliance-carbon dashboard
(`commodities_dashboard.py`).

The Python program is shallowly embedded below:
* a pandas `DataFrame` of daily OHLCV bars is modelled by its `Close`
  column (a list of rationals, ascending by timestamp) together with an
  optional `Volume` column;
* a Python `dict` (insertion-ordered, unique keys) is modelled by an
  association list;
* the external `yf.download` call is modelled by an oracle
  `String → FetchOutcome` which, per ticker, either yields a frame,
  yields an empty/None result, or raises;
* Python floats are idealised as `ℚ`, and Python's `round(x, n)`
  (round-half-to-even on `n` decimal digits) is `pyRound`.

The pound sign appears double-encoded in the source file, but the very
same byte sequence is used both in the `UK ETS` unit string and in the
`elif "£" in unit:` condition, so the embedding writes it as `£`
throughout; behaviour is unchanged under this renaming.
-/

/-- `listStartsB needle hay` : does `hay` start with `needle`? -/
def listStartsB : List Char → List Char → Bool
  | [], _ => true
  | _ :: _, [] => false
  | a :: as, b :: bs => a == b && listStartsB as bs

/-- `listInfixB needle hay` : does `needle` occur contiguously inside `hay`? -/
def listInfixB (needle : List Char) : List Char → Bool
  | [] => listStartsB needle []
  | b :: bs => listStartsB needle (b :: bs) || listInfixB needle bs

/-- Python's substring test `needle in hay` on strings. -/
def strContains (hay needle : String) : Bool :=
  listInfixB needle.data hay.data

/-- Round a rational to the nearest integer, ties to even
(the rounding mode of Python's builtin `round`). -/
def roundHalfToEven (q : ℚ) : ℤ :=
  let f : ℤ := Int.floor q
  let frac : ℚ := q - (f : ℚ)
  if frac < 1/2 then f
  else if 1/2 < frac then f + 1
  else if f % 2 = 0 then f else f + 1

/-- Python's `round(q, ndigits)` for `ndigits ≥ 0`, idealised over `ℚ`. -/
def pyRound (q : ℚ) (ndigits : ℕ) : ℚ :=
  (roundHalfToEven (q * (10 : ℚ) ^ ndigits) : ℚ) / (10 : ℚ) ^ ndigits

/-- A fetched daily-bar frame: the `Close` column (ascending by date) and,
when the frame carries one, the `Volume` column.  `closes = []` models an
empty frame (`df.empty`). -/
structure DataFrame where
  closes : List ℚ
  volumes : Option (List Int)
deriving DecidableEq

/-- Result of one `yf.download(ticker, …)` call:
`ok df` — a non-None, non-empty frame (already past `dropna(how="all")`,
which is the identity here since modelled frames carry no all-NaN rows);
`empty` — `df is None or df.empty`;
`err msg` — the call raised an exception rendered as `msg`. -/
inductive FetchOutcome where
  | ok (df : DataFrame)
  | empty
  | err (msg : String)
deriving DecidableEq

/-- The `commodities` dict: name → yfinance ticker. -/
def commodities : List (String × Option String) :=
  [("Crude Oil (WTI)", some "CL=F"), ("Brent Oil", some "BZ=F"),
   ("Natural Gas (Henry Hub, US)", some "NG=F"), ("EU Gas (TTF)", some "TTF=F"),
   ("LNG (JKM, Asia proxy)", some "JKM=F"), ("Gold", some "GC=F"),
   ("Silver", some "SI=F"), ("Copper", some "HG=F"), ("Aluminum", some "ALI=F"),
   ("Corn", some "ZC=F"), ("Wheat", some "ZW=F"), ("Soybeans", some "ZS=F"),
   ("Coffee", some "KC=F"), ("Cocoa", some "CC=F"),
   ("Live Cattle (Beef)", some "LE=F"), ("Ethylene (proxy)", some "ETHUSD=X")]

/-- The `currencies` dict: FX pair name → yfinance ticker. -/
def currencies : List (String × Option String) :=
  [("GBP/USD", some "GBPUSD=X"), ("EUR/USD", some "EURUSD=X"),
   ("USD/BRL", some "USDBRL=X"), ("USD/CNY", some "USDCNY=X"),
   ("USD/JPY", some "USDJPY=X"), ("USD/NOK", some "USDNOK=X"),
   ("USD/CAD", some "USDCAD=X"), ("USD/AUD", some "AUDUSD=X"),
   ("CHF/USD", some "CHFUSD=X")]

/-- The `compliance_markets` dict: market name → (optional ticker, unit). -/
def compliance_markets : List (String × (Option String × String)) :=
  [("EU ETS (EUA)", (some "C02.F", "€/t")),
   ("UK ETS", (none, "£/t")),
   ("California (CARB)", (none, "US$/t")),
   ("RGGI", (none, "US$/t")),
   ("New Zealand (NZ ETS)", (none, "NZ$/t")),
   ("South Korea (K-ETS)", (none, "KRW/t")),
   ("China National ETS", (none, "RMB/t")),
   ("Core Carbon Principles (CCP)", (none, "US$/t")),
   ("CORSIA (Phase 1)", (none, "US$/t")),
   ("CBL Global (GEO)", (some "GEO=F", "US$/t")),
   ("CBL Nature-Based (NGO)", (some "NGO=F", "US$/t")),
   ("ICE Nature-Based", (none, "US$/t")),
   ("California Air Resources Board (ARB) - Allowance", (none, "US$/t")),
   ("Australia ACCU", (none, "A$/t"))]

/-- `fetch_yfinance(tickers, period_days)` given the download oracle `fetch`.
Entries with a `None` ticker are skipped (`continue`); a `None`/empty
download is skipped (`continue`); an exception stores `None`; a good frame
is stored after `dropna`. -/
def fetch_yfinance (fetch : String → FetchOutcome)
    (tickers : List (String × Option String)) : List (String × Option DataFrame) :=
  tickers.filterMap fun nt =>
    match nt.2 with
    | none => none
    | some t =>
      match fetch t with
      | FetchOutcome.ok df => some (nt.1, some df)
      | FetchOutcome.empty => none
      | FetchOutcome.err _ => some (nt.1, none)

/-- A row of the summary tables built by `summary_from_yf_dict`. -/
structure SummaryRow where
  asset : String
  last_price : Option ℚ
  change_pct : Option ℚ
  volume : Option Int
deriving DecidableEq

/-- The loop body of `summary_from_yf_dict` for one `(name, df)` entry: a
`None` or empty frame yields a row of `None`s, otherwise last close,
rounded period-over-period percent change (guarding `prev == 0`), and the
last volume when the frame has a `Volume` column. -/
def summaryRow (nd : String × Option DataFrame) : SummaryRow :=
  match nd.2 with
  | none => ⟨nd.1, none, none, none⟩
  | some df =>
    if df.closes.isEmpty then ⟨nd.1, none, none, none⟩
    else
      let last := df.closes.getLastD 0
      let prev := if 1 < df.closes.length then df.closes.dropLast.getLastD 0 else last
      let pct : ℚ := if prev ≠ 0 then (last - prev) / prev * 100 else 0
      let vol : Option Int := df.volumes.map fun vs => vs.getLastD 0
      ⟨nd.1, some last, some (pyRound pct 2), vol⟩

/-- `summary_from_yf_dict(d)`: one `SummaryRow` per dict entry, in order. -/
def summary_from_yf_dict (d : List (String × Option DataFrame)) : List SummaryRow :=
  d.map summaryRow

/-- The per-market record assembled by `fetch_all_data` for the compliance
dict (`price`, `history`, `unit`, `source_note`). -/
structure ComplianceMeta where
  price : Option ℚ
  history : Option DataFrame
  unit : String
  source_note : String
deriving DecidableEq

/-- A row of the table built by `compliance_summary_table`. -/
structure CompRow where
  market : String
  unit : String
  price_local : Option ℚ
  price_usd : Option ℚ
  source : String
  note : String
deriving DecidableEq

/-- The currency-dispatch ladder of `compliance_summary_table` for a record
with `to_usd` and a non-None price `p`: yields `(converted, conv_note)`.
`fx_data` is the module-level FX dict the Python body actually reads (call
sites pass the same object as the `fx_df_for_conv` argument). -/
def convResult (fx_data : List (String × Option DataFrame))
    (name unit : String) (p : ℚ) : Option ℚ × String :=
  if strContains unit "NZ$" then
    (none, "(conversion not available - add USD/NZD pair)")
  else if strContains unit "A$" || strContains name "A$" then
    (none, "(conversion not available - add USD/AUD pair)")
  else if strContains unit "KRW" then
    (none, "(conversion not available - add USDKRW pair)")
  else if strContains unit "RMB" || strContains unit "CNY" then
    match fx_data.lookup "USD/CNY" with
    | some (some df) => (some (p * df.closes.getLastD 0), "converted using USD/CNY")
    | _ => (none, "")
  else if strContains unit "£" then
    match fx_data.lookup "GBP/USD" with
    | some (some df) => (some (p * df.closes.getLastD 0), "converted using GBP/USD")
    | _ => (none, "")
  else (none, "")

/-- The loop body of `compliance_summary_table` for one `(name, meta)` entry. -/
def complianceRow (fx_data : List (String × Option DataFrame)) (to_usd : Bool)
    (nm : String × ComplianceMeta) : CompRow :=
  let name := nm.1
  let meta := nm.2
  match meta.price, to_usd with
  | some p, true =>
    let conv := convResult fx_data name meta.unit p
    match conv.1 with
    | some c => ⟨name, meta.unit, some p, some (pyRound c 4), meta.source_note, conv.2⟩
    | none => ⟨name, meta.unit, some p, none, meta.source_note, conv.2⟩
  | _, _ => ⟨name, meta.unit, meta.price, none, meta.source_note, ""⟩

/-- `compliance_summary_table(compliance_dict, fx_df_for_conv, to_usd)`. -/
def compliance_summary_table (compliance_dict : List (String × ComplianceMeta))
    (fx_data : List (String × Option DataFrame)) (to_usd : Bool) : List CompRow :=
  compliance_dict.map (complianceRow fx_data to_usd)

/-- The compliance half of `fetch_all_data`: markets with a ticker are
downloaded (empty and raising downloads degrade to a priceless record with
an explanatory note); markets without one get the
`fetch_compliance_placeholder()` stub plus their unit. -/
def fetch_all_compliance (fetch : String → FetchOutcome)
    (markets : List (String × (Option String × String))) :
    List (String × ComplianceMeta) :=
  markets.map fun nm =>
    let name := nm.1
    let unit := nm.2.2
    match nm.2.1 with
    | some t =>
      match fetch t with
      | FetchOutcome.ok df =>
        (name, ⟨some (df.closes.getLastD 0), some df, unit, "Ticker " ++ t⟩)
      | FetchOutcome.empty =>
        (name, ⟨none, none, unit, "Ticker " ++ t ++ " returned empty"⟩)
      | FetchOutcome.err msg =>
        (name, ⟨none, none, unit, "Ticker error: " ++ msg⟩)
    | none => (name, ⟨none, none, unit, "placeholder - wire an API"⟩)

/-- One page of the generated PDF document.  The notes page carries no
payload here; in the source it holds four fixed disclaimer lines. -/
inductive Page where
  | title (timestamp : String) (days : ℕ)
  | summaryTable (heading : String) (rows : List SummaryRow)
  | complianceTable (heading : String) (rows : List CompRow)
  | chart (heading : String) (name : String)
  | notes
deriving DecidableEq

/-- `add_series_page(title, series_dict, max_plots)`: one chart page per
present, non-empty frame, in dict order, capped at `max_plots`. -/
def add_series_page (heading : String)
    (series_dict : List (String × Option DataFrame)) (max_plots : ℕ) : List Page :=
  ((series_dict.filter fun nd =>
      match nd.2 with
      | some df => !df.closes.isEmpty
      | none => false).take max_plots).map
    fun nd => Page.chart heading nd.1

/-- The `hist_dict` built inside `generate_pdf_snapshot`: the compliance
markets that carry a non-empty history frame, in dict order. -/
def complianceHistories (compliance_data : List (String × ComplianceMeta)) :
    List (String × Option DataFrame) :=
  compliance_data.filterMap fun nm =>
    match nm.2.history with
    | some h => if h.closes.isEmpty then none else some (nm.1, some h)
    | none => none

/-- `generate_pdf_snapshot(...)`: title page, the three summary-table
pages, up to six trend pages per asset class (the compliance block only
when some market has a non-empty history), and the closing notes page.
`now` is the UTC generation timestamp already rendered to a string. -/
def generate_pdf_snapshot (commod_table fx_table : List SummaryRow)
    (comp_table : List CompRow)
    (commod_data fx_data : List (String × Option DataFrame))
    (compliance_data : List (String × ComplianceMeta))
    (days : ℕ) (now : String) : List Page :=
  let hist_dict : List (String × Option DataFrame) := complianceHistories compliance_data
  [Page.title now days,
   Page.summaryTable "Commodities Summary" commod_table,
   Page.summaryTable "FX Summary" fx_table,
   Page.complianceTable "Compliance Carbon Markets Summary" comp_table]
  ++ add_series_page "Commodities Trend" commod_data 6
  ++ add_series_page "FX Trend" fx_data 6
  ++ (if hist_dict.isEmpty then [] else add_series_page "Compliance Market Trends" hist_dict 6)
  ++ [Page.notes]

/-- One entry of the `st.cache_data` store: the cached value and when it
was computed. -/
structure CacheEntry (α : Type) where
  value : α
  storedAt : ℕ
deriving DecidableEq

/-- The `ttl=1800` (30 minutes, in seconds) of the caching decorators. -/
def cacheTTL : ℕ := 1800

/-- Models the `st.cache_data(ttl=1800)` decorator wrapped around
`fetch_all_data(days)`: entries are keyed by the argument tuple — here
solely `days`.  `fetchAll now days` is the uncached body (its result may
depend on when it runs).  Returns the value, the updated store, and
whether an upstream fetch happened. -/
def cachedFetchAll {α : Type} (fetchAll : ℕ → ℕ → α)
    (cache : List (ℕ × CacheEntry α)) (now days : ℕ) :
    α × List (ℕ × CacheEntry α) × Bool :=
  match cache.lookup days with
  | some e =>
    if now < e.storedAt + cacheTTL then (e.value, cache, false)
    else
      let v := fetchAll now days
      (v, (days, ⟨v, now⟩) :: cache.filter (fun kv => kv.1 != days), true)
  | none =>
    let v := fetchAll now days
    (v, (days, ⟨v, now⟩) :: cache, true)

/-- Whether `fetch_yfinance` keeps a catalog entry: the entry must carry a
ticker and its download must not come back `None`/empty. -/
def keptByFetch (fetch : String → FetchOutcome) (nt : String × Option String) : Bool :=
  match nt.2 with
  | none => false
  | some t =>
    match fetch t with
    | FetchOutcome.empty => false
    | _ => true

lemma fetch_yfinance_keys (fetch : String → FetchOutcome)
    (cat : List (String × Option String)) :
    (fetch_yfinance fetch cat).map Prod.fst
      = (cat.filter (keptByFetch fetch)).map Prod.fst := by
  induction cat with
  | nil => rfl
  | cons hd tl ih =>
    obtain ⟨n, ot⟩ := hd
    cases ot with
    | none =>
      simpa [fetch_yfinance, List.filterMap_cons, List.filter_cons, keptByFetch]
        using ih
    | some t =>
      cases hf : fetch t with
      | ok df =>
        simpa [fetch_yfinance, List.filterMap_cons, List.filter_cons, keptByFetch, hf]
          using ih
      | empty =>
        simpa [fetch_yfinance, List.filterMap_cons, List.filter_cons, keptByFetch, hf]
          using ih
      | err m =>
        simpa [fetch_yfinance, List.filterMap_cons, List.filter_cons, keptByFetch, hf]
          using ih

lemma fetch_yfinance_mem_err (fetch : String → FetchOutcome)
    (cat : List (String × Option String)) (name t msg : String)
    (hmem : (name, some t) ∈ cat) (hf : fetch t = FetchOutcome.err msg) :
    (name, (none : Option DataFrame)) ∈ fetch_yfinance fetch cat := by
  unfold fetch_yfinance
  refine List.mem_filterMap.mpr ⟨(name, some t), hmem, ?_⟩
  simp [hf]

lemma fetch_yfinance_mem_ok (fetch : String → FetchOutcome)
    (cat : List (String × Option String)) (name t : String) (df : DataFrame)
    (hmem : (name, some t) ∈ cat) (hf : fetch t = FetchOutcome.ok df) :
    (name, some df) ∈ fetch_yfinance fetch cat := by
  unfold fetch_yfinance
  refine List.mem_filterMap.mpr ⟨(name, some t), hmem, ?_⟩
  simp [hf]

lemma summaryRow_asset (nd : String × Option DataFrame) :
    (summaryRow nd).asset = nd.1 := by
  obtain ⟨n, _ | df⟩ := nd
  · rfl
  · unfold summaryRow
    dsimp only
    split <;> rfl

lemma summaryRow_noData (n : String) :
    summaryRow (n, none) = ⟨n, none, none, none⟩ := rfl

lemma summary_assets (d : List (String × Option DataFrame)) :
    (summary_from_yf_dict d).map (fun r => r.asset) = d.map Prod.fst := by
  rw [summary_from_yf_dict, List.map_map]
  exact List.map_congr_left fun a _ => summaryRow_asset a

/-- C1: the claim — "the summary table contains exactly one `SummaryRow`
per instrument declared in the catalog, regardless of how many fetches
failed or returned empty data; no instrument's row is ever dropped" — is
false: an instrument whose fetch returns a `None`/empty frame is skipped
by `fetch_yfinance` (`continue`), so its row is dropped.  Here a
one-instrument catalog produces a zero-row table. -/
theorem C1_counterexample :
    (summary_from_yf_dict (fetch_yfinance (fun _ => FetchOutcome.empty)
        [("Gold", some "GC=F")])).length
      ≠ ([("Gold", some "GC=F")] : List (String × Option String)).length := by
  decide

/-- C1 (amended): the summary table contains exactly one `SummaryRow` per
entry of the *fetch-result mapping*, in order: its assets are exactly the
catalog names whose entry has a ticker and whose download was not
`None`/empty; entries recorded as `None` (a raised fetch) get a row with
all numeric fields absent; and the *compliance* table does keep one row
per catalog instrument. -/
theorem C1_amended_theorem (fetch cfetch : String → FetchOutcome)
    (cat : List (String × Option String))
    (markets : List (String × (Option String × String)))
    (fx : List (String × Option DataFrame)) (b : Bool) :
    ((summary_from_yf_dict (fetch_yfinance fetch cat)).map (fun r => r.asset)
        = (cat.filter (keptByFetch fetch)).map Prod.fst)
    ∧ (∀ nd, nd ∈ fetch_yfinance fetch cat → nd.2 = none →
        (⟨nd.1, none, none, none⟩ : SummaryRow)
          ∈ summary_from_yf_dict (fetch_yfinance fetch cat))
    ∧ ((compliance_summary_table (fetch_all_compliance cfetch markets) fx b).length
        = markets.length) := by
  refine ⟨(summary_assets _).trans (fetch_yfinance_keys fetch cat), ?_, ?_⟩
  · intro nd hmem h2
    refine List.mem_map.mpr ⟨nd, hmem, ?_⟩
    obtain ⟨n, v⟩ := nd
    cases v with
    | none => exact summaryRow_noData n
    | some df => simp at h2
  · simp [compliance_summary_table, fetch_all_compliance]

theorem C1_amended_witness :
    (⟨"Gold", none, none, none⟩ : SummaryRow)
      ∈ summary_from_yf_dict (fetch_yfinance (fun _ => FetchOutcome.err "network down")
          [("Gold", some "GC=F")]) :=
  (C1_amended_theorem (fun _ => FetchOutcome.err "network down")
      (fun _ => FetchOutcome.empty) [("Gold", some "GC=F")] [] [] false).2.1
    ("Gold", none) (by decide) rfl

/-- C2: the claim — "a per-instrument fetch failure (network error, empty
result, unknown symbol) causes that instrument to be recorded in the
returned mapping with a no-data value rather than being omitted" — is
false for the empty-result case: `fetch_yfinance` skips the instrument
entirely, so the returned mapping is empty. -/
theorem C2_counterexample :
    fetch_yfinance (fun _ => FetchOutcome.empty) [("EU Gas (TTF)", some "TTF=F")]
      = [] := by
  decide

/-- C2 (amended): a *raised* per-instrument fetch failure is recorded in
the returned mapping as a no-data (`None`) value and a successful fetch as
its frame, without aborting the batch; but an empty/`None` download result
is omitted from the mapping, whose keys are exactly the catalog names with
a ticker and a non-empty download, in catalog declaration order. -/
theorem C2_amended_theorem (fetch : String → FetchOutcome)
    (cat : List (String × Option String)) :
    (∀ name t msg, (name, some t) ∈ cat → fetch t = FetchOutcome.err msg →
        (name, (none : Option DataFrame)) ∈ fetch_yfinance fetch cat)
    ∧ (∀ name t df, (name, some t) ∈ cat → fetch t = FetchOutcome.ok df →
        (name, some df) ∈ fetch_yfinance fetch cat)
    ∧ ((fetch_yfinance fetch cat).map Prod.fst
        = (cat.filter (keptByFetch fetch)).map Prod.fst) :=
  ⟨fun name t msg hm hf => fetch_yfinance_mem_err fetch cat name t msg hm hf,
   fun name t df hm hf => fetch_yfinance_mem_ok fetch cat name t df hm hf,
   fetch_yfinance_keys fetch cat⟩

theorem C2_amended_witness :
    ("Crude Oil (WTI)", (none : Option DataFrame))
      ∈ fetch_yfinance (fun _ => FetchOutcome.err "timeout")
          [("Crude Oil (WTI)", some "CL=F")] :=
  (C2_amended_theorem (fun _ => FetchOutcome.err "timeout")
      [("Crude Oil (WTI)", some "CL=F")]).1
    "Crude Oil (WTI)" "CL=F" "timeout" (by decide) rfl

/-- The `prev` close used by the Summary Builder: the second-most-recent
close when the series has at least two points, else the last close. -/
def prevCloseOf (df : DataFrame) : ℚ :=
  if 1 < df.closes.length then df.closes.dropLast.getLastD 0 else df.closes.getLastD 0

/-- C5: for every non-empty series the Summary Builder reports the most
recent close as `last_price` and `(last - prev) / prev * 100`, rounded to
2 decimal places, as `change_pct`, with `prev` the second-most-recent
close when one exists and `last` otherwise.  (When `prev = 0` the code
short-circuits to `0`, which agrees with the formula under the `ℚ`
convention `x / 0 = 0`.) -/
theorem C5_theorem (name : String) (df : DataFrame) (h : df.closes ≠ []) :
    summary_from_yf_dict [(name, some df)]
      = [⟨name, some (df.closes.getLastD 0),
          some (pyRound
            ((df.closes.getLastD 0 - prevCloseOf df) / prevCloseOf df * 100) 2),
          df.volumes.map fun vs => vs.getLastD 0⟩] := by
  have hne : df.closes.isEmpty = false := by
    cases hc : df.closes with
    | nil => exact absurd hc h
    | cons a l => rfl
  simp only [summary_from_yf_dict, List.map_cons, List.map_nil, summaryRow, hne,
    Bool.false_eq_true, if_false]
  rw [show (if 1 < df.closes.length then df.closes.dropLast.getLastD 0
        else df.closes.getLastD 0) = prevCloseOf df from rfl]
  by_cases hp : prevCloseOf df = 0
  · simp [hp, sub_zero, div_zero, zero_mul]
  · simp [hp]

theorem C5_witness :
    summary_from_yf_dict [("Gold", some ⟨[100, 110], none⟩)]
        = [⟨"Gold", some 110, some 10, none⟩]
    ∧ summary_from_yf_dict [("Silver", some ⟨[100], none⟩)]
        = [⟨"Silver", some 100, some 0, none⟩] := by
  constructor
  · rw [ C5_theorem "Gold" ⟨[100, 110], none⟩ (by decide)]
    norm_num [prevCloseOf, pyRound, roundHalfToEven, List.getLastD]
  · rw [ C5_theorem "Silver" ⟨[100], none⟩ (by decide)]
    norm_num [prevCloseOf, pyRound, roundHalfToEven, List.getLastD]

lemma convResult_isSome_iff (fx : List (String × Option DataFrame))
    (name unit : String) (p : ℚ) :
    (convResult fx name unit p).1.isSome = true
      ↔ ((convResult fx name unit p).2 = "converted using USD/CNY"
          ∨ (convResult fx name unit p).2 = "converted using GBP/USD") := by
  unfold convResult
  split_ifs
  · decide
  · decide
  · decide
  · cases hc : fx.lookup "USD/CNY" with
    | none => dsimp only; decide
    | some o =>
      cases o with
      | none => dsimp only; decide
      | some df => simp
  · cases hc : fx.lookup "GBP/USD" with
    | none => dsimp only; decide
    | some o =>
      cases o with
      | none => dsimp only; decide
      | some df => simp
  · decide

/-- C7: in every table the Currency Conversion Engine produces, a row's
converted USD price is present exactly when its note records a successful
conversion (naming the pair used); non-converted rows always have an
absent USD price. -/
theorem C7_theorem (dict : List (String × ComplianceMeta))
    (fx : List (String × Option DataFrame)) (b : Bool) (row : CompRow)
    (h : row ∈ compliance_summary_table dict fx b) :
    row.price_usd.isSome = true
      ↔ (row.note = "converted using USD/CNY"
          ∨ row.note = "converted using GBP/USD") := by
  unfold compliance_summary_table at h
  obtain ⟨nm, hm, rfl⟩ := List.mem_map.mp h
  obtain ⟨name, pr, hist, unit, src⟩ := nm
  cases pr with
  | none => cases b <;> simp [complianceRow]
  | some p =>
    cases b with
    | false => simp [complianceRow]
    | true =>
      have hiff := convResult_isSome_iff fx name unit p
      cases hc : (convResult fx name unit p).1 with
      | none =>
        rw [hc] at hiff
        simpa [complianceRow, hc] using hiff
      | some c =>
        rw [hc] at hiff
        simpa [complianceRow, hc] using hiff

/-- A sample unconverted row (the `UK ETS` placeholder record passed
through the engine with no FX data fetched), used to witness `C7`. -/
def c7SampleRow : CompRow :=
  ⟨"UK ETS", "£/t", some 80, none, "placeholder - wire an API", ""⟩

theorem C7_witness :
    c7SampleRow.price_usd.isSome = true
      ↔ (c7SampleRow.note = "converted using USD/CNY"
          ∨ c7SampleRow.note = "converted using GBP/USD") :=
  C7_theorem [("UK ETS", ⟨some 80, none, "£/t", "placeholder - wire an API"⟩)] [] true
    c7SampleRow (by decide)

/-- C9: with the convert flag false, the compliance summary mirrors its
input — name, unit, local price and source note unchanged, USD price
uniformly absent, note empty. -/
theorem C9_theorem (dict : List (String × ComplianceMeta))
    (fx : List (String × Option DataFrame)) :
    compliance_summary_table dict fx false
      = dict.map fun nm => ⟨nm.1, nm.2.unit, nm.2.price, none, nm.2.source_note, ""⟩ := by
  unfold compliance_summary_table
  refine List.map_congr_left fun nm _ => ?_
  obtain ⟨n, pr, hist, unit, src⟩ := nm
  cases pr <;> rfl

lemma complianceRow_gbp (fx : List (String × Option DataFrame))
    (name : String) (meta : ComplianceMeta) (p : ℚ) (df : DataFrame)
    (hp : meta.price = some p)
    (hNZ : strContains meta.unit "NZ$" = false)
    (hAU : strContains meta.unit "A$" = false)
    (hAN : strContains name "A$" = false)
    (hKR : strContains meta.unit "KRW" = false)
    (hRM : strContains meta.unit "RMB" = false)
    (hCN : strContains meta.unit "CNY" = false)
    (hGB : strContains meta.unit "£" = true)
    (hlk : fx.lookup "GBP/USD" = some (some df)) :
    complianceRow fx true (name, meta)
      = ⟨name, meta.unit, some p, some (pyRound (p * df.closes.getLastD 0) 4),
          meta.source_note, "converted using GBP/USD"⟩ := by
  simp [complianceRow, convResult, hp, hNZ, hAU, hAN, hKR, hRM, hCN, hGB, hlk]

lemma complianceRow_gbp_missing (fx : List (String × Option DataFrame))
    (name : String) (meta : ComplianceMeta) (p : ℚ)
    (hp : meta.price = some p)
    (hNZ : strContains meta.unit "NZ$" = false)
    (hAU : strContains meta.unit "A$" = false)
    (hAN : strContains name "A$" = false)
    (hKR : strContains meta.unit "KRW" = false)
    (hRM : strContains meta.unit "RMB" = false)
    (hCN : strContains meta.unit "CNY" = false)
    (hGB : strContains meta.unit "£" = true)
    (hlk : fx.lookup "GBP/USD" = none ∨ fx.lookup "GBP/USD" = some none) :
    complianceRow fx true (name, meta)
      = ⟨name, meta.unit, some p, none, meta.source_note, ""⟩ := by
  rcases hlk with h | h <;>
    simp [complianceRow, convResult, hp, hNZ, hAU, hAN, hKR, hRM, hCN, hGB, h]

lemma complianceRow_cny (fx : List (String × Option DataFrame))
    (name : String) (meta : ComplianceMeta) (p : ℚ) (df : DataFrame)
    (hp : meta.price = some p)
    (hNZ : strContains meta.unit "NZ$" = false)
    (hAU : strContains meta.unit "A$" = false)
    (hAN : strContains name "A$" = false)
    (hKR : strContains meta.unit "KRW" = false)
    (hRC : strContains meta.unit "RMB" = true ∨ strContains meta.unit "CNY" = true)
    (hlk : fx.lookup "USD/CNY" = some (some df)) :
    complianceRow fx true (name, meta)
      = ⟨name, meta.unit, some p, some (pyRound (p * df.closes.getLastD 0) 4),
          meta.source_note, "converted using USD/CNY"⟩ := by
  rcases hRC with h | h <;>
    simp [complianceRow, convResult, hp, hNZ, hAU, hAN, hKR, h, hlk]

lemma complianceRow_nzd (fx : List (String × Option DataFrame))
    (name : String) (meta : ComplianceMeta) (p : ℚ)
    (hp : meta.price = some p)
    (hNZ : strContains meta.unit "NZ$" = true) :
    complianceRow fx true (name, meta)
      = ⟨name, meta.unit, some p, none, meta.source_note,
          "(conversion not available - add USD/NZD pair)"⟩ := by
  simp [complianceRow, convResult, hp, hNZ]

lemma complianceRow_aud (fx : List (String × Option DataFrame))
    (name : String) (meta : ComplianceMeta) (p : ℚ)
    (hp : meta.price = some p)
    (hNZ : strContains meta.unit "NZ$" = false)
    (hA : strContains meta.unit "A$" = true ∨ strContains name "A$" = true) :
    complianceRow fx true (name, meta)
      = ⟨name, meta.unit, some p, none, meta.source_note,
          "(conversion not available - add USD/AUD pair)"⟩ := by
  rcases hA with h | h <;> simp [complianceRow, convResult, hp, hNZ, h]

lemma complianceRow_krw (fx : List (String × Option DataFrame))
    (name : String) (meta : ComplianceMeta) (p : ℚ)
    (hp : meta.price = some p)
    (hNZ : strContains meta.unit "NZ$" = false)
    (hAU : strContains meta.unit "A$" = false)
    (hAN : strContains name "A$" = false)
    (hKR : strContains meta.unit "KRW" = true) :
    complianceRow fx true (name, meta)
      = ⟨name, meta.unit, some p, none, meta.source_note,
          "(conversion not available - add USDKRW pair)"⟩ := by
  simp [complianceRow, convResult, hp, hNZ, hAU, hAN, hKR]

lemma complianceRow_cny_missing (fx : List (String × Option DataFrame))
    (name : String) (meta : ComplianceMeta) (p : ℚ)
    (hp : meta.price = some p)
    (hNZ : strContains meta.unit "NZ$" = false)
    (hAU : strContains meta.unit "A$" = false)
    (hAN : strContains name "A$" = false)
    (hKR : strContains meta.unit "KRW" = false)
    (hRC : strContains meta.unit "RMB" = true ∨ strContains meta.unit "CNY" = true)
    (hlk : fx.lookup "USD/CNY" = none ∨ fx.lookup "USD/CNY" = some none) :
    complianceRow fx true (name, meta)
      = ⟨name, meta.unit, some p, none, meta.source_note, ""⟩ := by
  rcases hRC with h | h <;> rcases hlk with hl | hl <;>
    simp [complianceRow, convResult, hp, hNZ, hAU, hAN, hKR, h, hl]

lemma complianceRow_noTag (fx : List (String × Option DataFrame))
    (name : String) (meta : ComplianceMeta) (p : ℚ)
    (hp : meta.price = some p)
    (hNZ : strContains meta.unit "NZ$" = false)
    (hAU : strContains meta.unit "A$" = false)
    (hAN : strContains name "A$" = false)
    (hKR : strContains meta.unit "KRW" = false)
    (hRM : strContains meta.unit "RMB" = false)
    (hCN : strContains meta.unit "CNY" = false)
    (hGB : strContains meta.unit "£" = false) :
    complianceRow fx true (name, meta)
      = ⟨name, meta.unit, some p, none, meta.source_note, ""⟩ := by
  simp [complianceRow, convResult, hp, hNZ, hAU, hAN, hKR, hRM, hCN, hGB]

/-- C3: the claim — "£-priced record with the GBP/USD series absent gets a
conversion note naming the missing GBP pair" — is false: the `£` branch
sets a note only when the pair is present, so the note stays the empty
string, which does not mention GBP at all. -/
theorem C3_counterexample :
    compliance_summary_table
        [("UK ETS", ⟨some 80, none, "£/t", "placeholder - wire an API"⟩)] [] true
      = [⟨"UK ETS", "£/t", some 80, none, "placeholder - wire an API", ""⟩]
    ∧ strContains "" "GBP" = false := by
  decide

/-- C3 (amended): with conversion on and a present price, `converted_price`
is left absent both when the unit's currency has no wired pair and when
the wired pair's series is missing — but the explanatory note naming the
missing pair is produced only for the *unwired* currencies: NZ$ (USD/NZD),
A$ (USD/AUD, also triggered by `A$` in the record's name) and KRW
(USDKRW); for a £-tagged unit with the GBP/USD series absent (or stored
as `None`), and likewise an RMB/CNY-tagged unit with the USD/CNY series
absent, the note is left empty. -/
theorem C3_amended_theorem (name : String) (meta : ComplianceMeta)
    (fx : List (String × Option DataFrame)) (p : ℚ)
    (hp : meta.price = some p)
    (hNZ : strContains meta.unit "NZ$" = false)
    (hAU : strContains meta.unit "A$" = false)
    (hAN : strContains name "A$" = false)
    (hKR : strContains meta.unit "KRW" = false)
    (hRM : strContains meta.unit "RMB" = false)
    (hCN : strContains meta.unit "CNY" = false)
    (hGB : strContains meta.unit "£" = true) :
    ((fx.lookup "GBP/USD" = none ∨ fx.lookup "GBP/USD" = some none) →
        compliance_summary_table [(name, meta)] fx true
          = [⟨name, meta.unit, some p, none, meta.source_note, ""⟩])
    ∧ (∀ name2 (meta2 : ComplianceMeta) (p2 : ℚ), meta2.price = some p2 →
        strContains meta2.unit "NZ$" = false →
        strContains meta2.unit "A$" = false →
        strContains name2 "A$" = false →
        strContains meta2.unit "KRW" = false →
        (strContains meta2.unit "RMB" = true ∨ strContains meta2.unit "CNY" = true) →
        (fx.lookup "USD/CNY" = none ∨ fx.lookup "USD/CNY" = some none) →
        compliance_summary_table [(name2, meta2)] fx true
          = [⟨name2, meta2.unit, some p2, none, meta2.source_note, ""⟩])
    ∧ (∀ name3 (meta3 : ComplianceMeta) (p3 : ℚ), meta3.price = some p3 →
        strContains meta3.unit "NZ$" = true →
        compliance_summary_table [(name3, meta3)] fx true
          = [⟨name3, meta3.unit, some p3, none, meta3.source_note,
              "(conversion not available - add USD/NZD pair)"⟩])
    ∧ (∀ name4 (meta4 : ComplianceMeta) (p4 : ℚ), meta4.price = some p4 →
        strContains meta4.unit "NZ$" = false →
        (strContains meta4.unit "A$" = true ∨ strContains name4 "A$" = true) →
        compliance_summary_table [(name4, meta4)] fx true
          = [⟨name4, meta4.unit, some p4, none, meta4.source_note,
              "(conversion not available - add USD/AUD pair)"⟩])
    ∧ (∀ name5 (meta5 : ComplianceMeta) (p5 : ℚ), meta5.price = some p5 →
        strContains meta5.unit "NZ$" = false →
        strContains meta5.unit "A$" = false →
        strContains name5 "A$" = false →
        strContains meta5.unit "KRW" = true →
        compliance_summary_table [(name5, meta5)] fx true
          = [⟨name5, meta5.unit, some p5, none, meta5.source_note,
              "(conversion not available - add USDKRW pair)"⟩]) := by
  refine ⟨?_, ?_, ?_, ?_, ?_⟩
  · intro hlk
    simpa [compliance_summary_table] using
      complianceRow_gbp_missing fx name meta p hp hNZ hAU hAN hKR hRM hCN hGB hlk
  · intro name2 meta2 p2 hp2 hNZ2 hAU2 hAN2 hKR2 hRC2 hlk2
    simpa [compliance_summary_table] using
      complianceRow_cny_missing fx name2 meta2 p2 hp2 hNZ2 hAU2 hAN2 hKR2 hRC2 hlk2
  · intro name3 meta3 p3 hp3 hNZ3
    simpa [compliance_summary_table] using
      complianceRow_nzd fx name3 meta3 p3 hp3 hNZ3
  · intro name4 meta4 p4 hp4 hNZ4 hA4
    simpa [compliance_summary_table] using
      complianceRow_aud fx name4 meta4 p4 hp4 hNZ4 hA4
  · intro name5 meta5 p5 hp5 hNZ5 hAU5 hAN5 hKR5
    simpa [compliance_summary_table] using
      complianceRow_krw fx name5 meta5 p5 hp5 hNZ5 hAU5 hAN5 hKR5

theorem C3_amended_witness :
    (compliance_summary_table
        [("China National ETS", ⟨some 90, none, "RMB/t", "placeholder - wire an API"⟩)]
        [] true
      = [⟨"China National ETS", "RMB/t", some 90, none, "placeholder - wire an API",
          ""⟩])
    ∧ (compliance_summary_table
        [("New Zealand (NZ ETS)", ⟨some 60, none, "NZ$/t", "placeholder - wire an API"⟩)]
        [] true
      = [⟨"New Zealand (NZ ETS)", "NZ$/t", some 60, none, "placeholder - wire an API",
          "(conversion not available - add USD/NZD pair)"⟩])
    ∧ (compliance_summary_table
        [("Australia ACCU", ⟨some 35, none, "A$/t", "placeholder - wire an API"⟩)]
        [] true
      = [⟨"Australia ACCU", "A$/t", some 35, none, "placeholder - wire an API",
          "(conversion not available - add USD/AUD pair)"⟩])
    ∧ (compliance_summary_table
        [("South Korea (K-ETS)", ⟨some 9, none, "KRW/t", "placeholder - wire an API"⟩)]
        [] true
      = [⟨"South Korea (K-ETS)", "KRW/t", some 9, none, "placeholder - wire an API",
          "(conversion not available - add USDKRW pair)"⟩]) :=
  have h := C3_amended_theorem "UK ETS"
    ⟨some 80, none, "£/t", "placeholder - wire an API"⟩ [] 80
    rfl (by decide) (by decide) (by decide) (by decide) (by decide) (by decide)
    (by decide)
  ⟨h.2.1 "China National ETS" ⟨some 90, none, "RMB/t", "placeholder - wire an API"⟩ 90
      rfl (by decide) (by decide) (by decide) (by decide) (Or.inl (by decide))
      (Or.inl rfl),
   h.2.2.1 "New Zealand (NZ ETS)"
      ⟨some 60, none, "NZ$/t", "placeholder - wire an API"⟩ 60 rfl (by decide),
   h.2.2.2.1 "Australia ACCU" ⟨some 35, none, "A$/t", "placeholder - wire an API"⟩ 35
      rfl (by decide) (Or.inl (by decide)),
   h.2.2.2.2 "South Korea (K-ETS)"
      ⟨some 9, none, "KRW/t", "placeholder - wire an API"⟩ 9
      rfl (by decide) (by decide) (by decide) (by decide)⟩

/-- C4: the claim — "converted_price equals price multiplied by the pair's
most recent close" — is false as stated: the code stores
`round(converted, 4)`.  With price `1` and a GBP/USD close of
`1 + 1/20000 = 1.00005`, the stored USD price is `1`, not the product. -/
theorem C4_counterexample :
    compliance_summary_table [("UK ETS", ⟨some 1, none, "£/t", "s"⟩)]
        [("GBP/USD", some ⟨[1 + 1/20000], none⟩)] true
      = [⟨"UK ETS", "£/t", some 1, some 1, "s", "converted using GBP/USD"⟩]
    ∧ (1 : ℚ) ≠ 1 * (1 + 1/20000) := by
  constructor
  · have h := complianceRow_gbp [("GBP/USD", some ⟨[1 + 1/20000], none⟩)] "UK ETS"
        ⟨some 1, none, "£/t", "s"⟩ 1 ⟨[1 + 1/20000], none⟩ rfl (by decide) (by decide)
        (by decide) (by decide) (by decide) (by decide) (by decide) (by simp)
    simp only [compliance_summary_table, List.map_cons, List.map_nil, h]
    norm_num [pyRound, roundHalfToEven, List.getLastD]
  · norm_num

/-- C4 (amended): when the required pair's series is present, the stored
USD price is `price * (pair's most recent close)` *rounded to 4 decimal
places*, and the note is `"converted using <pair>"` — for £-tagged units
via GBP/USD and for RMB/CNY-tagged units via USD/CNY. -/
theorem C4_amended_theorem (name : String) (meta : ComplianceMeta)
    (fx : List (String × Option DataFrame)) (p : ℚ) (df : DataFrame)
    (hp : meta.price = some p)
    (hNZ : strContains meta.unit "NZ$" = false)
    (hAU : strContains meta.unit "A$" = false)
    (hAN : strContains name "A$" = false)
    (hKR : strContains meta.unit "KRW" = false)
    (hRM : strContains meta.unit "RMB" = false)
    (hCN : strContains meta.unit "CNY" = false)
    (hGB : strContains meta.unit "£" = true) :
    (fx.lookup "GBP/USD" = some (some df) →
        compliance_summary_table [(name, meta)] fx true
          = [⟨name, meta.unit, some p, some (pyRound (p * df.closes.getLastD 0) 4),
              meta.source_note, "converted using GBP/USD"⟩])
    ∧ (∀ name2 (meta2 : ComplianceMeta) (p2 : ℚ) (df2 : DataFrame),
        meta2.price = some p2 →
        strContains meta2.unit "NZ$" = false →
        strContains meta2.unit "A$" = false →
        strContains name2 "A$" = false →
        strContains meta2.unit "KRW" = false →
        (strContains meta2.unit "RMB" = true ∨ strContains meta2.unit "CNY" = true) →
        fx.lookup "USD/CNY" = some (some df2) →
        compliance_summary_table [(name2, meta2)] fx true
          = [⟨name2, meta2.unit, some p2,
              some (pyRound (p2 * df2.closes.getLastD 0) 4),
              meta2.source_note, "converted using USD/CNY"⟩]) := by
  constructor
  · intro hlk
    simpa [compliance_summary_table] using
      complianceRow_gbp fx name meta p df hp hNZ hAU hAN hKR hRM hCN hGB hlk
  · intro name2 meta2 p2 df2 hp2 hNZ2 hAU2 hAN2 hKR2 hRC2 hlk2
    simpa [compliance_summary_table] using
      complianceRow_cny fx name2 meta2 p2 df2 hp2 hNZ2 hAU2 hAN2 hKR2 hRC2 hlk2

theorem C4_amended_witness :
    compliance_summary_table [("UK ETS", ⟨some 80, none, "£/t", "s"⟩)]
        [("GBP/USD", some ⟨[5/4], none⟩)] true
      = [⟨"UK ETS", "£/t", some 80, some 100, "s", "converted using GBP/USD"⟩] := by
  have h := ( C4_amended_theorem "UK ETS" ⟨some 80, none, "£/t", "s"⟩
      [("GBP/USD", some ⟨[5/4], none⟩)] 80 ⟨[5/4], none⟩ rfl (by decide) (by decide)
      (by decide) (by decide) (by decide) (by decide) (by decide)).1 (by simp)
  rw [h]
  norm_num [pyRound, roundHalfToEven, List.getLastD]

/-- C10: the claim — "every record whose *unit* carries none of the
recognized non-USD currency tags bypasses the converter with an absent
USD price and an empty note" — is false: the A$ branch also inspects the
record's *name*, so a USD-unit record whose name contains `A$` gets the
AUD unavailability note. -/
theorem C10_counterexample :
    compliance_summary_table
        [("A$ Carbon Desk", ⟨some 1, none, "US$/t", "s"⟩)] [] true
      = [⟨"A$ Carbon Desk", "US$/t", some 1, none, "s",
          "(conversion not available - add USD/AUD pair)"⟩]
    ∧ "(conversion not available - add USD/AUD pair)" ≠ "" := by
  decide

/-- C10 (amended): a record whose unit carries none of the recognized
non-USD tags (NZ$, A$, KRW, RMB, CNY, £) *and whose name does not contain
`A$`* passes through the USD conversion with an absent converted price
and an empty note, even with the flag on and a present price. -/
theorem C10_amended_theorem (name : String) (meta : ComplianceMeta)
    (fx : List (String × Option DataFrame)) (p : ℚ)
    (hp : meta.price = some p)
    (hNZ : strContains meta.unit "NZ$" = false)
    (hAU : strContains meta.unit "A$" = false)
    (hAN : strContains name "A$" = false)
    (hKR : strContains meta.unit "KRW" = false)
    (hRM : strContains meta.unit "RMB" = false)
    (hCN : strContains meta.unit "CNY" = false)
    (hGB : strContains meta.unit "£" = false) :
    compliance_summary_table [(name, meta)] fx true
      = [⟨name, meta.unit, some p, none, meta.source_note, ""⟩] := by
  simpa [compliance_summary_table] using
    complianceRow_noTag fx name meta p hp hNZ hAU hAN hKR hRM hCN hGB

theorem C10_amended_witness :
    compliance_summary_table
        [("California (CARB)", ⟨some 30, none, "US$/t", "placeholder - wire an API"⟩)]
        [] true
      = [⟨"California (CARB)", "US$/t", some 30, none,
          "placeholder - wire an API", ""⟩] :=
  C10_amended_theorem "California (CARB)"
    ⟨some 30, none, "US$/t", "placeholder - wire an API"⟩ [] 30 rfl
    (by decide) (by decide) (by decide) (by decide) (by decide) (by decide) (by decide)

lemma add_series_page_chart (heading : String)
    (d : List (String × Option DataFrame)) (k : ℕ) (pg : Page)
    (h : pg ∈ add_series_page heading d k) : ∃ n, pg = Page.chart heading n := by
  unfold add_series_page at h
  obtain ⟨nd, _, rfl⟩ := List.mem_map.mp h
  exact ⟨nd.1, rfl⟩

lemma add_series_page_nil (heading : String)
    (d : List (String × Option DataFrame)) (k : ℕ)
    (h : ∀ nd ∈ d, nd.2 = (none : Option DataFrame)) :
    add_series_page heading d k = [] := by
  unfold add_series_page
  have hf : (d.filter fun nd =>
      match nd.2 with
      | some df => !df.closes.isEmpty
      | none => false) = [] := by
    refine List.filter_eq_nil_iff.mpr fun nd hnd => ?_
    rw [h nd hnd]
    simp
  rw [hf]
  simp

lemma complianceHistories_nil (xd : List (String × ComplianceMeta))
    (h : ∀ nm ∈ xd, nm.2.history = (none : Option DataFrame)) :
    complianceHistories xd = [] := by
  unfold complianceHistories
  refine List.filterMap_eq_nil_iff.mpr fun nm hnm => ?_
  rw [h nm hnm]

/-- C6: snapshot generation is total and never fails on missing data: for
any inputs the document is the title page, the three summary-table pages,
a (possibly empty) block consisting solely of chart pages, and the notes
page; and when every series is absent the document is exactly the title
page, the three (all-blank) summary pages and the notes page, with every
would-be trend page simply omitted. -/
theorem C6_theorem (ct ft : List SummaryRow) (pt : List CompRow)
    (cd fd : List (String × Option DataFrame))
    (xd : List (String × ComplianceMeta)) (days : ℕ) (now : String) :
    (∃ charts : List Page,
        generate_pdf_snapshot ct ft pt cd fd xd days now
          = [Page.title now days,
             Page.summaryTable "Commodities Summary" ct,
             Page.summaryTable "FX Summary" ft,
             Page.complianceTable "Compliance Carbon Markets Summary" pt]
            ++ charts ++ [Page.notes]
        ∧ ∀ pg ∈ charts, ∃ heading n, pg = Page.chart heading n)
    ∧ ((∀ nd ∈ cd, nd.2 = (none : Option DataFrame)) →
        (∀ nd ∈ fd, nd.2 = (none : Option DataFrame)) →
        (∀ nm ∈ xd, nm.2.history = (none : Option DataFrame)) →
        generate_pdf_snapshot ct ft pt cd fd xd days now
          = [Page.title now days,
             Page.summaryTable "Commodities Summary" ct,
             Page.summaryTable "FX Summary" ft,
             Page.complianceTable "Compliance Carbon Markets Summary" pt,
             Page.notes]) := by
  constructor
  · refine ⟨add_series_page "Commodities Trend" cd 6
        ++ add_series_page "FX Trend" fd 6
        ++ (if (complianceHistories xd).isEmpty then []
            else add_series_page "Compliance Market Trends" (complianceHistories xd) 6),
      ?_, ?_⟩
    · simp [generate_pdf_snapshot, List.append_assoc]
    · intro pg hpg
      rcases List.mem_append.mp hpg with hab | hc
      · rcases List.mem_append.mp hab with ha | hb
        · obtain ⟨n, rfl⟩ := add_series_page_chart _ _ _ _ ha
          exact ⟨_, n, rfl⟩
        · obtain ⟨n, rfl⟩ := add_series_page_chart _ _ _ _ hb
          exact ⟨_, n, rfl⟩
      · split at hc
        · exact absurd hc (List.not_mem_nil _)
        · obtain ⟨n, rfl⟩ := add_series_page_chart _ _ _ _ hc
          exact ⟨_, n, rfl⟩
  · intro h1 h2 h3
    rw [generate_pdf_snapshot]
    rw [add_series_page_nil _ _ _ h1, add_series_page_nil _ _ _ h2,
      complianceHistories_nil _ h3]
    simp [add_series_page]

theorem C6_witness :
    generate_pdf_snapshot [] [] [] [] [] [] 30 "2026-10-12_0000UTC"
      = [Page.title "2026-10-12_0000UTC" 30,
         Page.summaryTable "Commodities Summary" [],
         Page.summaryTable "FX Summary" [],
         Page.complianceTable "Compliance Carbon Markets Summary" [],
         Page.notes] :=
  (C6_theorem [] [] [] [] [] [] 30 "2026-10-12_0000UTC").2
    (fun _ h => absurd h (List.not_mem_nil _))
    (fun _ h => absurd h (List.not_mem_nil _))
    (fun _ h => absurd h (List.not_mem_nil _))

/-- C8: the fetch-all memoization is keyed solely by the lookback window
with a fixed 30-minute TTL: a first call on a cold key fetches and stores;
a second call with the same window strictly inside the TTL returns the
same cached value with no upstream fetch and leaves the store unchanged;
a call at or past expiry performs exactly one new fetch whose result
replaces the entry. -/
theorem C8_theorem {α : Type} (fetchAll : ℕ → ℕ → α)
    (c0 : List (ℕ × CacheEntry α)) (days t1 t2 : ℕ)
    (hmiss : c0.lookup days = none) :
    (cachedFetchAll fetchAll c0 t1 days
        = (fetchAll t1 days, (days, ⟨fetchAll t1 days, t1⟩) :: c0, true))
    ∧ (t2 < t1 + cacheTTL →
        cachedFetchAll fetchAll ((days, ⟨fetchAll t1 days, t1⟩) :: c0) t2 days
          = (fetchAll t1 days, (days, ⟨fetchAll t1 days, t1⟩) :: c0, false))
    ∧ (t1 + cacheTTL ≤ t2 →
        cachedFetchAll fetchAll ((days, ⟨fetchAll t1 days, t1⟩) :: c0) t2 days
          = (fetchAll t2 days,
             (days, ⟨fetchAll t2 days, t2⟩) :: c0.filter (fun kv => kv.1 != days),
             true)) := by
  refine ⟨?_, ?_, ?_⟩
  · unfold cachedFetchAll
    rw [hmiss]
  · intro hlt
    unfold cachedFetchAll
    rw [List.lookup_cons_self]
    simp [hlt]
  · intro hge
    unfold cachedFetchAll
    rw [List.lookup_cons_self]
    have hnlt : ¬ (t2 < t1 + cacheTTL) := not_lt.mpr hge
    simp [hnlt, List.filter_cons]

theorem C8_witness :
    (cachedFetchAll (fun _ _ => (42 : ℕ)) ([] : List (ℕ × CacheEntry ℕ)) 0 30
        = (42, [(30, ⟨42, 0⟩)], true))
    ∧ (cachedFetchAll (fun _ _ => (42 : ℕ)) [(30, ⟨42, 0⟩)] 100 30
        = (42, [(30, ⟨42, 0⟩)], false))
    ∧ (cachedFetchAll (fun _ _ => (42 : ℕ)) [(30, ⟨42, 0⟩)] 2000 30
        = (42, [(30, ⟨42, 2000⟩)], true)) := by
  have h := C8_theorem (fun _ _ => (42 : ℕ)) [] 30 0 100 rfl
  have h2 := C8_theorem (fun _ _ => (42 : ℕ)) [] 30 0 2000 rfl
  exact ⟨h.1, h.2.1 (by decide), h2.2.2 (by decide)⟩
